import Mathlib

/-!
# Claudemeter — shallow embedding and verification

A shallow embedding of the core state machines of the Claudemeter
repository (`src/scraper.js`, `src/auth.js`, `src/claudeDataLoader.js`)
together with theorems settling the specification claims about them.

Asynchronous browser I/O is modelled by passing the outcome of each
external operation (navigation, cookie read, API call, …) as explicit
`Except`/`Option`-valued environment fields; the JavaScript control flow
(try/catch/finally, early returns) is then translated statement by
statement into pure state-passing functions.
-/

namespace Claudemeter

/-! ## String helpers (JavaScript `String.prototype.includes`, trim, regex pieces) -/

/-- Is `pat` a prefix of `text` (character-exact)? -/
def startsWithChars : List Char → List Char → Bool
  | [], _ => true
  | _ :: _, [] => false
  | c :: cs, d :: ds => c == d && startsWithChars cs ds

/-- Does `text` contain `pat` as a contiguous substring?  Mirrors the
case-sensitive JavaScript `text.includes(pat)`. -/
def listContainsSub (pat : List Char) : List Char → Bool
  | [] => startsWithChars pat []
  | d :: ds => startsWithChars pat (d :: ds) || listContainsSub pat ds

/-- JavaScript `s.includes(pat)`. -/
def strIncludes (s pat : String) : Bool :=
  listContainsSub pat.data s.data

/-- Whitespace as matched by the regex class `\s` (common characters). -/
def isJsSpace (c : Char) : Bool :=
  c == ' ' || c == '\t' || c == '\n' || c == '\r' || c == '\x0b' || c == '\x0c'

/-- JavaScript `String.prototype.trim` on a character list. -/
def jsTrim (cs : List Char) : List Char :=
  ((cs.dropWhile isJsSpace).reverse.dropWhile isJsSpace).reverse

/-- Case-insensitive literal match: if the lowercase of `text` starts with
`pat` (itself lowercase), return the rest of `text`. -/
def ciPrefixDrop (pat : List Char) : List Char → Option (List Char)
  | text =>
    match pat, text with
    | [], t => some t
    | _ :: _, [] => none
    | p :: ps, c :: cs => if c.toLower == p then ciPrefixDrop ps cs else none

/-- Numeric value of a list of decimal digits (JavaScript `parseInt(-, 10)`
on a digits-only string). -/
def digitsToNat (ds : List Char) : Nat :=
  ds.foldl (fun acc c => acc * 10 + (c.toNat - '0'.toNat)) 0

/-! ## JavaScript numbers with NaN

`calculateResetTime` in `src/scraper.js` performs `Date` arithmetic whose
result is `NaN` when the timestamp does not parse (`new Date(bad)` yields an
Invalid Date without throwing).  `JSNum` models an integer-or-NaN number:
every comparison with NaN is false, arithmetic propagates NaN and template
interpolation renders it as `"NaN"`. -/

inductive JSNum where
  | nan : JSNum
  | val (n : Int) : JSNum
deriving DecidableEq

namespace JSNum

def sub : JSNum → JSNum → JSNum
  | val a, val b => val (a - b)
  | _, _ => nan

/-- JavaScript `a <= b` (false when either side is NaN). -/
def le : JSNum → JSNum → Bool
  | val a, val b => a ≤ b
  | _, _ => false

/-- JavaScript `a > b` (false when either side is NaN). -/
def gt : JSNum → JSNum → Bool
  | val a, val b => b < a
  | _, _ => false

/-- `Math.floor (a / d)` for a positive integer divisor `d`; NaN propagates. -/
def floorDiv (d : Int) : JSNum → JSNum
  | val a => val (Int.fdiv a d)
  | nan => nan

/-- `a % d` (for our uses `a ≥ 0`, so JS remainder = `Int.emod`); NaN propagates. -/
def jsMod (d : Int) : JSNum → JSNum
  | val a => val (Int.emod a d)
  | nan => nan

/-- Template-literal rendering: `NaN` prints as `"NaN"`. -/
def render : JSNum → String
  | val a => toString a
  | nan => "NaN"

end JSNum

/-! ## `calculateResetTime` (src/scraper.js lines 739–765)

The JavaScript takes an ISO timestamp; `parseDate` stands for
`new Date(ts).getTime()` (NaN for an Invalid Date) and `nowMs` for
`Date.now()`.  A missing (`null`/`undefined`) timestamp is `none`; the
empty string is likewise falsy in the `if (!isoTimestamp)` guard. -/

def calculateResetTime (parseDate : String → JSNum) (nowMs : Int)
    (isoTimestamp : Option String) : String :=
  match isoTimestamp with
  | none => "Unknown"
  | some ts =>
    if ts = "" then "Unknown"
    else
      let diffMs := JSNum.sub (parseDate ts) (JSNum.val nowMs)
      if JSNum.le diffMs (JSNum.val 0) then "Soon"
      else
        let hours := JSNum.floorDiv 3600000 diffMs
        let minutes := JSNum.floorDiv 60000 (JSNum.jsMod 3600000 diffMs)
        if JSNum.gt hours (JSNum.val 24) then
          let days := JSNum.floorDiv 24 hours
          let remainingHours := JSNum.jsMod 24 hours
          s!"{JSNum.render days}d {JSNum.render remainingHours}h"
        else if JSNum.gt hours (JSNum.val 0) then
          s!"{JSNum.render hours}h {JSNum.render minutes}m"
        else
          s!"{JSNum.render minutes}m"

/-! ## Endpoint discovery (src/scraper.js `setupRequestInterception`, lines 677–737)

The page's `request` event handler classifies every observed URL against the
three known endpoint shapes and stores the captured URL (and, for usage, the
header set) on the scraper.  `matchesEndpoint` and the pattern table live in
`apiSchema.js`, which is not part of the provided sources, so they are
modelled from the specification. -/

/-- An intercepted page request: method, URL and headers. -/
structure Request where
  method : String
  url : String
  headers : List (String × String)
deriving DecidableEq

/-- Modelled from the spec: `apiSchema.js` (`API_ENDPOINTS`) is not under
`src/`.  The spec describes "three known endpoint shapes (usage limits,
prepaid credits, overage/spend cap)" classified "by pattern match against
known path fragments"; each shape is a path fragment. -/
structure EndpointPatterns where
  usage : String
  prepaidCredits : String
  overageSpendLimit : String

/-- Modelled from the spec: the concrete path fragments of the three private
endpoints (usage/limits, prepaid credits, overage/spend-cap). -/
def API_ENDPOINTS : EndpointPatterns :=
  { usage := "/api/organizations/usage"
    prepaidCredits := "/api/prepaid_credits"
    overageSpendLimit := "/api/overage_spend_limit" }

/-- Modelled from the spec: `apiSchema.js` (`matchesEndpoint`) is not under
`src/`; the spec says an observed URL is "pattern-matched against three known
endpoint shapes" by "known path fragments", i.e. substring containment. -/
def matchesEndpoint (url : String) (pathFragment : String) : Bool :=
  strIncludes url pathFragment

/-- JavaScript object-spread update used for
`{...request.headers(), 'Content-Type': 'application/json'}`: any existing
binding for the key is replaced, otherwise the pair is appended. -/
def setHeader (hs : List (String × String)) (k v : String) : List (String × String) :=
  if hs.any (fun p => p.1 == k) then
    hs.map (fun p => if p.1 == k then (k, v) else p)
  else hs ++ [(k, v)]

/-- The endpoint-capture fields of `ClaudeUsageScraper` touched by the
request handler (src/scraper.js lines 134–138). -/
structure CaptureState where
  capturedEndpoints : List Request
  apiEndpoint : Option String
  apiHeaders : Option (List (String × String))
  creditsEndpoint : Option String
  overageEndpoint : Option String
deriving DecidableEq

/-- Fresh capture state as installed by `setupRequestInterception`
(`this.capturedEndpoints = []`; endpoint fields start `null`). -/
def CaptureState.init : CaptureState :=
  { capturedEndpoints := []
    apiEndpoint := none
    apiHeaders := none
    creditsEndpoint := none
    overageEndpoint := none }

/-- The `page.on('request', …)` handler of `setupRequestInterception`
(src/scraper.js lines 682–712), as a state transition on the capture
fields.  Note each matching branch assigns unconditionally. -/
def onRequest (s : CaptureState) (req : Request) : CaptureState :=
  let s :=
    if strIncludes req.url "/api/" then
      { s with capturedEndpoints := s.capturedEndpoints ++ [req] }
    else s
  let s :=
    if matchesEndpoint req.url API_ENDPOINTS.usage then
      { s with apiEndpoint := some req.url
               apiHeaders := some (setHeader req.headers "Content-Type" "application/json") }
    else s
  let s :=
    if matchesEndpoint req.url API_ENDPOINTS.prepaidCredits then
      { s with creditsEndpoint := some req.url }
    else s
  let s :=
    if matchesEndpoint req.url API_ENDPOINTS.overageSpendLimit then
      { s with overageEndpoint := some req.url }
    else s
  s

/-- Feeding a whole sequence of intercepted requests to the handler. -/
def processRequests (s : CaptureState) (reqs : List Request) : CaptureState :=
  reqs.foldl onRequest s

/-! ## Session close / reset (src/scraper.js `close` lines 911–951,
`reset` lines 953–973)

The browser-facing fields of `ClaudeUsageScraper` relevant to teardown,
together with the capture fields above.  `disconnectOutcome` stands for the
result of `browser.disconnect()` on the attached path; on the owned path all
close/kill errors are swallowed by the inner `try`/`catch`. -/

structure ScraperState where
  browser : Bool
  page : Bool
  isInitialized : Bool
  isConnectedBrowser : Bool
  lockHeld : Bool
  capture : CaptureState
deriving DecidableEq

/-- `close()` (src/scraper.js lines 911–951).  Returns the post state and
whether the call returned normally (`Except.ok`) or propagated an error.
The `finally` block always releases the browser lock (its own errors are
caught inside `releaseBrowserLockIfHeld`, lines 190–208). -/
def closeFn (disconnectOutcome : Except String Unit) (s : ScraperState) :
    ScraperState × Except String Unit :=
  if s.browser then
    if s.isConnectedBrowser then
      match disconnectOutcome with
      | .error e => ({ s with lockHeld := false }, .error e)
      | .ok _ =>
        ({ s with browser := false, page := false, isInitialized := false,
                  isConnectedBrowser := false, lockHeld := false }, .ok ())
    else
      ({ s with browser := false, page := false, isInitialized := false,
                isConnectedBrowser := false, lockHeld := false }, .ok ())
  else
    ({ s with lockHeld := false }, .ok ())

/-- `reset()` (src/scraper.js lines 953–973): `await this.close()` then null
out all captured endpoint fields.  If `close` throws, the error propagates
before the fields are cleared. -/
def resetFn (disconnectOutcome : Except String Unit) (s : ScraperState) :
    ScraperState × Except String Unit :=
  match closeFn disconnectOutcome s with
  | (s', .error e) => (s', .error e)
  | (s', .ok _) => ({ s' with capture := CaptureState.init }, .ok ())

/-! ## HTML-scraping fallback regexes (src/scraper.js lines 883–891)

`bodyText.match(/(\d+)%\s*used/i)` and
`bodyText.match(/Resets?\s+in\s+([^\n]+)/i)`, implemented as direct
matchers.  A JavaScript regex match scans start positions left to right and
succeeds at the first position where the pattern matches; for these two
patterns greedy matching needs no backtracking (each greedy element is
followed by a literal that cannot extend it), except the optional `s?`,
which is tried both ways. -/

/-- Try `(\d+)%\s*used` (case-insensitive) anchored at the start of `cs`;
returns the captured number. -/
def tryPercentAt (cs : List Char) : Option Nat :=
  let ds := cs.takeWhile Char.isDigit
  let rest := cs.dropWhile Char.isDigit
  if ds.isEmpty then none
  else
    match rest with
    | '%' :: r2 =>
      match ciPrefixDrop "used".data (r2.dropWhile isJsSpace) with
      | some _ => some (digitsToNat ds)
      | none => none
    | _ => none

/-- First match of `(\d+)%\s*used` (case-insensitive) in the text. -/
def findPercent : List Char → Option Nat
  | [] => none
  | c :: cs =>
    match tryPercentAt (c :: cs) with
    | some n => some n
    | none => findPercent cs

/-- Match `\s+in\s+([^\n]+)` (case-insensitive) anchored at `cs`; returns
the capture of `([^\n]+)`. -/
def tryResetTail (cs : List Char) : Option (List Char) :=
  let sp1 := cs.takeWhile isJsSpace
  let r1 := cs.dropWhile isJsSpace
  if sp1.isEmpty then none
  else
    match ciPrefixDrop "in".data r1 with
    | none => none
    | some r2 =>
      let sp2 := r2.takeWhile isJsSpace
      let r3 := r2.dropWhile isJsSpace
      if sp2.isEmpty then none
      else
        let cap := r3.takeWhile (fun c => c != '\n')
        if cap.isEmpty then none else some cap

/-- Try `Resets?\s+in\s+([^\n]+)` (case-insensitive) anchored at `cs`. -/
def tryResetAt (cs : List Char) : Option (List Char) :=
  match ciPrefixDrop "reset".data cs with
  | none => none
  | some r1 =>
    match r1 with
    | [] => tryResetTail r1
    | c :: r2 =>
      if c.toLower == 's' then
        match tryResetTail r2 with
        | some cap => some cap
        | none => tryResetTail r1
      else tryResetTail r1

/-- First match of `Resets?\s+in\s+([^\n]+)` (case-insensitive). -/
def findReset : List Char → Option (List Char)
  | [] => none
  | c :: cs =>
    match tryResetAt (c :: cs) with
    | some cap => some cap
    | none => findReset cs

/-- The result object built by the `page.evaluate` scraping callback
(src/scraper.js lines 883–891): first percent capture parsed with
`parseInt`, first reset capture trimmed; `null` fields become `none`. -/
structure ScrapeData where
  usagePercent : Option Nat
  resetTime : Option String
deriving DecidableEq

/-- The scraping callback over the rendered page's visible text. -/
def scrapePage (bodyText : String) : ScrapeData :=
  { usagePercent := findPercent bodyText.data
    resetTime := (findReset bodyText.data).map (fun cap => String.mk (jsTrim cap)) }

/-! ## JSON values and the response normalizer

`apiSchema.js` (`USAGE_API_SCHEMA`, `extractFromSchema`, `processPrepaidData`,
`processOverageData`, `getSchemaInfo`) is not under `src/`; those pieces are
modelled from the specification (§4.5, §3). -/

/-- A JSON value. -/
inductive Json where
  | null : Json
  | bool (b : Bool) : Json
  | num (n : Int) : Json
  | str (s : String) : Json
  | arr (elems : List Json) : Json
  | obj (fields : List (String × Json)) : Json

/-- Field lookup on a JSON object. -/
def Json.getField (j : Json) (key : String) : Option Json :=
  match j with
  | .obj fields => fields.lookup key
  | _ => none

/-- Numeric field, if present and a number. -/
def Json.getNum (j : Json) (key : String) : Option Int :=
  match j.getField key with
  | some (.num n) => some n
  | _ => none

/-- String field, if present and a string. -/
def Json.getStr (j : Json) (key : String) : Option String :=
  match j.getField key with
  | some (.str s) => some s
  | _ => none

/-- One utilization bucket of the usage response. -/
structure BucketData where
  utilization : Int
  resetsAt : Option String

/-- The record produced by schema extraction: five-hour and seven-day
aggregate buckets (required), per-model seven-day buckets and the extra
usage value (optional). -/
structure Extracted where
  fiveHour : BucketData
  sevenDay : BucketData
  sevenDaySonnet : Option BucketData
  sevenDayOpus : Option BucketData
  extraUsage : Option Int

/-- Extract one bucket object: requires a numeric `utilization`; the
`resets_at` ISO timestamp is optional. -/
def extractBucket (j : Json) (key : String) : Option BucketData :=
  match j.getField key with
  | some b =>
    match b.getNum "utilization" with
    | some u => some { utilization := u, resetsAt := b.getStr "resets_at" }
    | none => none
  | none => none

/-- Modelled from the spec: `apiSchema.js` (`extractFromSchema` driven by
`USAGE_API_SCHEMA`) is not under `src/`.  Per §4.5 it "extracts five-hour
and seven-day-aggregate and per-model seven-day utilization percentages and
ISO reset timestamps" and "fails … if required fields are absent after
extraction"; the aggregate buckets are required, the per-model buckets and
extra-usage value optional. -/
def extractFromSchema (j : Json) : Option Extracted :=
  match extractBucket j "five_hour", extractBucket j "seven_day" with
  | some fh, some sd =>
    some { fiveHour := fh
           sevenDay := sd
           sevenDaySonnet := extractBucket j "seven_day_sonnet"
           sevenDayOpus := extractBucket j "seven_day_opus"
           extraUsage :=
             match j.getField "extra_usage" with
             | some e => e.getNum "value"
             | none => none }
  | _, _ => none

/-- Optional prepaid balance (§3): balance and currency. -/
structure Prepaid where
  balance : Int
  currency : String

/-- Optional overage record (§3): amount used, limit, percent, currency. -/
structure Overage where
  used : Int
  limit : Int
  percent : Int
  currency : String

/-- Modelled from the spec: `apiSchema.js` (`processPrepaidData`) is not
under `src/`.  Per §4.4 failures of the opportunistic credits call "simply
yield absent optional data"; absent or malformed input maps to `none` and
the function never fails. -/
def processPrepaidData (creditsData : Option Json) : Option Prepaid :=
  match creditsData with
  | none => none
  | some j =>
    match j.getNum "amount", j.getStr "currency" with
    | some a, some c => some { balance := a, currency := c }
    | _, _ => none

/-- Modelled from the spec: `apiSchema.js` (`processOverageData`) is not
under `src/`; same tolerant shape as `processPrepaidData`. -/
def processOverageData (overageData : Option Json) : Option Overage :=
  match overageData with
  | none => none
  | some j =>
    match j.getNum "used", j.getNum "limit", j.getNum "percent", j.getStr "currency" with
    | some u, some l, some p, some c =>
      some { used := u, limit := l, percent := p, currency := c }
    | _, _, _, _ => none

/-- The normalized snapshot built by `processApiResponse`
(src/scraper.js lines 767–793). -/
structure UsageSnapshot where
  usagePercent : Int
  resetTime : String
  usagePercentWeek : Int
  resetTimeWeek : String
  usagePercentSonnet : Option Int
  resetTimeSonnet : String
  usagePercentOpus : Option Int
  resetTimeOpus : String
  extraUsage : Option Int
  prepaidCredits : Option Prepaid
  monthlyCredits : Option Overage
  rawData : Json

/-- `processApiResponse` (src/scraper.js lines 767–793): schema extraction
plus reset-time rendering; any extraction failure is caught and rethrown as
a fixed message. -/
def processApiResponse (parseDate : String → JSNum) (nowMs : Int)
    (apiResponse : Json) (creditsData overageData : Option Json) :
    Except String UsageSnapshot :=
  match extractFromSchema apiResponse with
  | none => .error "Failed to process API response data"
  | some d =>
    .ok { usagePercent := d.fiveHour.utilization
          resetTime := calculateResetTime parseDate nowMs d.fiveHour.resetsAt
          usagePercentWeek := d.sevenDay.utilization
          resetTimeWeek := calculateResetTime parseDate nowMs d.sevenDay.resetsAt
          usagePercentSonnet := (d.sevenDaySonnet).map BucketData.utilization
          resetTimeSonnet :=
            calculateResetTime parseDate nowMs ((d.sevenDaySonnet).bind BucketData.resetsAt)
          usagePercentOpus := (d.sevenDayOpus).map BucketData.utilization
          resetTimeOpus :=
            calculateResetTime parseDate nowMs ((d.sevenDayOpus).bind BucketData.resetsAt)
          extraUsage := d.extraUsage
          prepaidCredits := processPrepaidData creditsData
          monthlyCredits := processOverageData overageData
          rawData := apiResponse }

/-! ## `fetchUsageData` (src/scraper.js lines 795–909) -/

/-- The outcomes of the external operations `fetchUsageData` awaits: the
navigation to the usage page, the direct usage-API call, the two
opportunistic calls, and the rendered page text for the scraping fallback.
The captured endpoints/headers come from the session's capture state. -/
structure FetchEnv where
  gotoResult : Except String Unit
  apiEndpoint : Option String
  apiHeaders : Option (List (String × String))
  creditsEndpoint : Option String
  overageEndpoint : Option String
  usageCall : Except String Json
  creditsCall : Except String (Option Json)
  overageCall : Except String (Option Json)
  bodyText : String
  parseDate : String → JSNum
  nowMs : Int

/-- A successful fetch: either a normalized snapshot from the direct API
path, or the `{usagePercent, resetTime, timestamp}` object from the
scraping fallback. -/
inductive FetchOutput where
  | api (snapshot : UsageSnapshot) : FetchOutput
  | scraped (usagePercent : Nat) (resetTime : String) : FetchOutput

/-- The credits data value after the guarded opportunistic call
(src/scraper.js lines 839–854): stays `null` unless the endpoint was
captured and the call neither threw nor returned non-2xx. -/
def creditsDataOf (env : FetchEnv) : Option Json :=
  if env.creditsEndpoint.isSome then
    match env.creditsCall with
    | .ok v => v
    | .error _ => none
  else none

/-- Same for the overage call (src/scraper.js lines 856–868). -/
def overageDataOf (env : FetchEnv) : Option Json :=
  if env.overageEndpoint.isSome then
    match env.overageCall with
    | .ok v => v
    | .error _ => none
  else none

/-- The HTML-scraping fallback (src/scraper.js lines 879–901). -/
def scrapeFallback (bodyText : String) : Except String FetchOutput :=
  let data := scrapePage bodyText
  match data.usagePercent with
  | none => .error "Could not find usage percentage. Page layout may have changed."
  | some p =>
    let rt :=
      match data.resetTime with
      | some s => if s = "" then "Unknown" else s
      | none => "Unknown"
    .ok (.scraped p rt)

/-- `fetchUsageData` body inside the outer `try` (after the navigation):
direct API path when a usage endpoint and headers were captured, falling
back to scraping when the direct call or the response processing throws. -/
def fetchBody (env : FetchEnv) : Except String FetchOutput :=
  if env.apiEndpoint.isSome && env.apiHeaders.isSome then
    match env.usageCall with
    | .ok response =>
      match processApiResponse env.parseDate env.nowMs response
          (creditsDataOf env) (overageDataOf env) with
      | .ok snap => .ok (.api snap)
      | .error _ => scrapeFallback env.bodyText
    | .error _ => scrapeFallback env.bodyText
  else scrapeFallback env.bodyText

/-- `fetchUsageData` (src/scraper.js lines 795–909): navigation, then the
body, with the outer catch rewording errors whose message contains
`timeout`. -/
def fetchUsageData (env : FetchEnv) : Except String FetchOutput :=
  let inner : Except String FetchOutput :=
    match env.gotoResult with
    | .error e => .error e
    | .ok _ => fetchBody env
  match inner with
  | .error e =>
    if strIncludes e "timeout" then
      .error "Usage page took too long to load. Please try again."
    else .error e
  | .ok v => .ok v

/-! ## Shared coordination state (src/scraper.js `BrowserState`, lines 48–85)

The on-disk record `{state, reason, timestamp}`.  `read` treats a missing or
unparsable file, a falsy timestamp, or a record older than 5 minutes as
`unknown`. -/

structure StateRecord where
  state : String
  reason : Option String
  timestamp : Int
deriving DecidableEq

/-- `BrowserState.read()` (src/scraper.js lines 49–60).  `file = none`
covers a missing file and a JSON parse failure (both fall through to the
`unknown` default). -/
def browserStateRead (file : Option StateRecord) (now : Int) : StateRecord :=
  match file with
  | some data =>
    if data.timestamp ≠ 0 ∧ now - data.timestamp < 300000 then data
    else { state := "unknown", reason := none, timestamp := 0 }
  | none => { state := "unknown", reason := none, timestamp := 0 }

/-- `BrowserState.write(state, reason)` (src/scraper.js lines 62–76). -/
def browserStateWrite (state : String) (reason : Option String) (now : Int) :
    Option StateRecord :=
  some { state := state, reason := reason, timestamp := now }

/-- `BrowserState.clear()` (src/scraper.js lines 78–84): the record file is
deleted. -/
def browserStateClear : Option StateRecord := none

/-! ## Cookie check and session validation (src/auth.js `ClaudeAuth`) -/

/-- A browser cookie as read through `page.cookies`: name and expiry in
seconds since the epoch. -/
structure Cookie where
  name : String
  expires : Int
deriving DecidableEq

/-- The result object of `checkCookie` (src/auth.js lines 827–861). -/
structure CookieCheckResult where
  cookieExists : Bool
  expired : Bool
  cookie : Option Cookie
  error : Option String
deriving DecidableEq

/-- `checkCookie` (src/auth.js lines 827–861).  `hasPage` is `!!this.page`;
`cookieFetch` is the combined outcome of the conditional navigation and
`page.cookies` inside the `try` (an exception anywhere in it lands in the
`catch`).  The expiry test `sessionCookie.expires <= Date.now() / 1000` is
rendered as `expires * 1000 ≤ nowMs`, which is equivalent for integer
expiry values. -/
def checkCookie (hasPage : Bool) (cookieFetch : Except String (List Cookie))
    (nowMs : Int) : CookieCheckResult :=
  if ¬hasPage then
    { cookieExists := false, expired := true, cookie := none, error := some "no_page" }
  else
    match cookieFetch with
    | .error e =>
      { cookieExists := false, expired := true, cookie := none, error := some e }
    | .ok cookies =>
      match cookies.find? (fun c => c.name == "sessionKey") with
      | none =>
        { cookieExists := false, expired := true, cookie := none, error := none }
      | some c =>
        { cookieExists := true, expired := decide (c.expires * 1000 ≤ nowMs)
          cookie := some c, error := none }

/-- The `{valid, reason}` result of `validateSession`. -/
structure ValidationResult where
  valid : Bool
  reason : String
deriving DecidableEq

/-- `validateSession` (src/auth.js lines 863–928).  `probe` is the outcome
of the in-page `fetch` probe against the organizations endpoint:
`.ok b` is `response.ok` (network failures inside the page callback already
map to `false` there), `.error` is `page.evaluate` itself throwing. -/
def validateSession (hasPage : Bool) (cookieFetch : Except String (List Cookie))
    (nowMs : Int) (probe : Except String Bool) : ValidationResult :=
  if ¬hasPage then { valid := false, reason := "no_page" }
  else
    let cookieCheck := checkCookie hasPage cookieFetch nowMs
    match cookieCheck.error with
    | some _ => { valid := false, reason := "cookie_check_error" }
    | none =>
      if ¬cookieCheck.cookieExists then { valid := false, reason := "no_cookie" }
      else if cookieCheck.expired then { valid := false, reason := "cookie_expired" }
      else
        match probe with
        | .ok isValid =>
          { valid := isValid, reason := if isValid then "valid" else "server_rejected" }
        | .error _ => { valid := false, reason := "validation_error" }

/-! ## `ensureLoggedIn` (src/scraper.js lines 537–600) -/

/-- What a run of `ensureLoggedIn` did: how many browser operations it
performed (navigations, probes, login-browser work), whether it invoked the
interactive login flow (`openLoginBrowser`), and its outcome. -/
structure EnsureTrace where
  browserOps : Nat
  invokedLogin : Bool
  result : Except String Unit

/-- The catch block of `ensureLoggedIn` (src/scraper.js lines 593–599):
errors mentioning `timeout` are reworded. -/
def ensureWrap (r : Except String Unit) : Except String Unit :=
  match r with
  | .error e =>
    if strIncludes e "timeout" then
      .error "Failed to load Claude.ai. Please check your internet connection."
    else .error e
  | .ok _ => .ok ()

/-- `ensureLoggedIn` (src/scraper.js lines 537–600) as a trace: the shared
state is read first and `logging_in` / `login_failed` abort before any
browser work; otherwise a missing session goes straight to the login flow,
and an existing session is validated (`validation`), leading either to the
usage-page navigation (`gotoUsage`) or to the login flow (`loginFlow`). -/
def ensureLoggedIn (file : Option StateRecord) (now : Int) (hasSession : Bool)
    (validation : ValidationResult) (gotoUsage : Except String Unit)
    (loginFlow : Except String Unit) : EnsureTrace :=
  let sharedState := browserStateRead file now
  if sharedState.state = "logging_in" then
    { browserOps := 0, invokedLogin := false, result := .error "LOGIN_IN_PROGRESS" }
  else if sharedState.state = "login_failed" then
    { browserOps := 0, invokedLogin := false, result := .error "LOGIN_FAILED_SHARED" }
  else
    if ¬hasSession then
      { browserOps := 1, invokedLogin := true, result := ensureWrap loginFlow }
    else
      if validation.valid then
        { browserOps := 2, invokedLogin := false, result := ensureWrap gotoUsage }
      else
        { browserOps := 2, invokedLogin := true, result := ensureWrap loginFlow }

/-! ## `openLoginBrowser` (src/scraper.js lines 602–675) -/

/-- Outcome of `waitForLogin` (src/auth.js lines 931–985): the polling loop
always returns one of `{success}`, `{cancelled}` or a timeout (its internal
cookie-poll errors are caught inside the loop). -/
inductive LoginWait where
  | success : LoginWait
  | cancelled : LoginWait
  | timedOut : LoginWait
deriving DecidableEq

/-- The outcomes of the external operations `openLoginBrowser` awaits. -/
structure OLBEnv where
  /-- whether `lockfile.lock` succeeds within its retry budget. -/
  acquireOk : Bool
  /-- `forceOpenBrowser()` result (src/scraper.js lines 980–1064):
  `{success, message}`. -/
  forceOpenSuccess : Bool
  forceOpenMessage : String
  /-- `waitForLogin()` outcome. -/
  loginWait : LoginWait
  /-- the close/re-initialize/navigate sequence after a successful login
  (src/scraper.js lines 644–650). -/
  postLogin : Except String Unit
  now : Int

/-- The `catch` block of `openLoginBrowser` (src/scraper.js lines 665–670):
for any error whose message does not contain the `LOGIN_CANCELLED` or
`LOGIN_TIMEOUT` markers, write `login_failed` with the message as reason;
otherwise keep the state file the body left behind. -/
def loginCatchUpdate (now : Int) (bodyFile : Option StateRecord) :
    Except String Unit → Option StateRecord
  | .error e =>
    if ¬strIncludes e "LOGIN_CANCELLED" ∧ ¬strIncludes e "LOGIN_TIMEOUT" then
      browserStateWrite "login_failed" (some e) now
    else bodyFile
  | .ok _ => bodyFile

/-- `openLoginBrowser` (src/scraper.js lines 602–675) over the shared state
file and the lock flag.  Returns the final file, whether the lock is held
on return, and the outcome.  The `catch` writes `login_failed` for any
error except the `LOGIN_CANCELLED`/`LOGIN_TIMEOUT` markers (whose branches
already wrote it); the `finally` always releases the lock. -/
def openLoginBrowser (env : OLBEnv) (file0 : Option StateRecord) (lock0 : Bool) :
    Option StateRecord × Bool × Except String Unit :=
  -- acquireBrowserLock: re-entrant, else may fail with "Browser busy"
  if ¬lock0 ∧ ¬env.acquireOk then
    (file0, false,
      .error "Browser busy (another Claudemeter instance is using the browser). Please wait and retry.")
  else
    -- state file after the entry write `BrowserState.write('logging_in')`;
    -- every branch of the try body then overwrites or clears it
    let body : Option StateRecord × Except String Unit :=
      match env.forceOpenSuccess, env.loginWait with
      | false, _ =>
        (browserStateWrite "login_failed" (some "browser_launch_failed") env.now,
          .error env.forceOpenMessage)
      | true, .success =>
        (browserStateClear,
          match env.postLogin with
          | .ok _ => .ok ()
          | .error e => .error e)
      | true, .cancelled =>
        (browserStateWrite "login_failed" (some "user_cancelled") env.now,
          .error "LOGIN_CANCELLED")
      | true, .timedOut =>
        (browserStateWrite "login_failed" (some "timeout") env.now,
          .error "LOGIN_TIMEOUT")
    (loginCatchUpdate env.now body.1 body.2, false, body.2)

/-! ## JSONL usage aggregation (src/claudeDataLoader.js lines 142–231) -/

/-- The `message.usage` token counts of a parsed record.  `input_tokens`
and `output_tokens` are required numbers (`isValidUsageRecord`,
lines 142–150); the cache fields may be absent, in which case `|| 0`
substitutes zero. -/
structure TokenUsage where
  input_tokens : Int
  output_tokens : Int
  cache_creation_input_tokens : Option Int
  cache_read_input_tokens : Option Int
deriving DecidableEq

/-- A parsed JSONL usage record, as consumed after `isValidUsageRecord`
filtering: dedup identity fields and the usage block.  `message.id` and
`requestId` may be absent (`|| ''` in `getRecordHash`). -/
structure UsageRecord where
  messageId : Option String
  requestId : Option String
  usage : TokenUsage
deriving DecidableEq

/-- `getRecordHash` (src/claudeDataLoader.js lines 152–156):
`` `${messageId}-${requestId}` `` with missing ids as the empty string. -/
def getRecordHash (r : UsageRecord) : String :=
  (r.messageId.getD "") ++ "-" ++ (r.requestId.getD "")

/-- `calculateTotalTokens` (src/claudeDataLoader.js lines 158–163). -/
def calculateTotalTokens (u : TokenUsage) : Int :=
  u.input_tokens + u.output_tokens +
    (u.cache_creation_input_tokens.getD 0) + (u.cache_read_input_tokens.getD 0)

/-- The dedup loop of `loadUsageRecords` (src/claudeDataLoader.js
lines 196–204): keep the first record for each hash, with `seen` the set of
hashes already encountered. -/
def dedupRecords : List UsageRecord → List String → List UsageRecord
  | [], _ => []
  | r :: rs, seen =>
    let h := getRecordHash r
    if h ∈ seen then dedupRecords rs seen
    else r :: dedupRecords rs (h :: seen)

/-- The aggregate object returned by `loadUsageRecords`. -/
structure UsageTotals where
  totalTokens : Int
  inputTokens : Int
  outputTokens : Int
  cacheCreationTokens : Int
  cacheReadTokens : Int
  messageCount : Nat
  records : List UsageRecord

/-- The aggregation phase of `loadUsageRecords` (src/claudeDataLoader.js
lines 196–230) over the (already filtered) record list: dedup by hash,
then sum each token field over the unique records, with `totalTokens` the
sum of the four totals. -/
def loadUsageRecords (filteredRecords : List UsageRecord) : UsageTotals :=
  let uniqueRecords := dedupRecords filteredRecords []
  let totalInputTokens := (uniqueRecords.map (fun r => r.usage.input_tokens)).sum
  let totalOutputTokens := (uniqueRecords.map (fun r => r.usage.output_tokens)).sum
  let totalCacheCreationTokens :=
    (uniqueRecords.map (fun r => r.usage.cache_creation_input_tokens.getD 0)).sum
  let totalCacheReadTokens :=
    (uniqueRecords.map (fun r => r.usage.cache_read_input_tokens.getD 0)).sum
  { totalTokens := totalInputTokens + totalOutputTokens +
      totalCacheCreationTokens + totalCacheReadTokens
    inputTokens := totalInputTokens
    outputTokens := totalOutputTokens
    cacheCreationTokens := totalCacheCreationTokens
    cacheReadTokens := totalCacheReadTokens
    messageCount := uniqueRecords.length
    records := uniqueRecords }

/-! ## Concrete inputs used by witnesses and counterexamples -/

/-- A first request matching the usage-endpoint shape. -/
def reqUsage1 : Request :=
  { method := "GET"
    url := "https://claude.ai/api/organizations/usage?org=1"
    headers := [("x-first", "1")] }

/-- A second, different request matching the same usage-endpoint shape. -/
def reqUsage2 : Request :=
  { method := "GET"
    url := "https://claude.ai/api/organizations/usage?org=2"
    headers := [("x-second", "2")] }

/-- Page text of spec Scenario C. -/
def scenarioCText : String := "Claude\n73% used\nResets in 2h 15m\nWeekly"

/-- A fetch environment in which no usage endpoint was captured and the
page shows the Scenario C text. -/
def envScenarioC : FetchEnv :=
  { gotoResult := .ok ()
    apiEndpoint := none
    apiHeaders := none
    creditsEndpoint := none
    overageEndpoint := none
    usageCall := .error "no endpoint"
    creditsCall := .ok none
    overageCall := .ok none
    bodyText := scenarioCText
    parseDate := fun _ => JSNum.nan
    nowMs := 0 }

/-- A well-formed usage-API response. -/
def usageJsonOk : Json :=
  .obj [("five_hour", .obj [("utilization", .num 42), ("resets_at", .str "2026-01-01T00:00:00Z")]),
        ("seven_day", .obj [("utilization", .num 7)])]

/-- The extraction of `usageJsonOk`. -/
def extractedOk : Extracted :=
  { fiveHour := { utilization := 42, resetsAt := some "2026-01-01T00:00:00Z" }
    sevenDay := { utilization := 7, resetsAt := none }
    sevenDaySonnet := none
    sevenDayOpus := none
    extraUsage := none }

/-- A fetch environment where the direct usage call succeeds but both
opportunistic calls fail (credits throws, overage returns non-2xx). -/
def envDirectOk : FetchEnv :=
  { gotoResult := .ok ()
    apiEndpoint := some "https://claude.ai/api/organizations/usage?org=1"
    apiHeaders := some [("Content-Type", "application/json")]
    creditsEndpoint := some "https://claude.ai/api/prepaid_credits?org=1"
    overageEndpoint := some "https://claude.ai/api/overage_spend_limit?org=1"
    usageCall := .ok usageJsonOk
    creditsCall := .error "fetch failed"
    overageCall := .ok none
    bodyText := ""
    parseDate := fun _ => JSNum.nan
    nowMs := 0 }

/-- A login-flow environment: lock acquired, browser opens, user cancels. -/
def envCancelledLogin : OLBEnv :=
  { acquireOk := true
    forceOpenSuccess := true
    forceOpenMessage := ""
    loginWait := .cancelled
    postLogin := .ok ()
    now := 1000 }

/-- A live owned session with endpoints captured from `reqUsage1` and
`reqUsage2`, holding the browser lock. -/
def liveSession : ScraperState :=
  { browser := true
    page := true
    isInitialized := true
    isConnectedBrowser := false
    lockHeld := true
    capture := processRequests CaptureState.init [reqUsage1, reqUsage2] }

/-- A usage record. -/
def recA : UsageRecord :=
  { messageId := some "msg-1", requestId := some "req-1"
    usage := { input_tokens := 10, output_tokens := 5
               cache_creation_input_tokens := some 3
               cache_read_input_tokens := none } }

/-- A different record carrying the same deduplication hash as `recA`. -/
def recB : UsageRecord :=
  { messageId := some "msg-1", requestId := some "req-1"
    usage := { input_tokens := 100, output_tokens := 50
               cache_creation_input_tokens := none
               cache_read_input_tokens := some 7 } }

/-- A record with a distinct hash. -/
def recC : UsageRecord :=
  { messageId := some "msg-2", requestId := none
    usage := { input_tokens := 1, output_tokens := 2
               cache_creation_input_tokens := none
               cache_read_input_tokens := none } }

/-! ## Specification functions for the corrected capture behaviour -/

/-- The URL of the last request in `reqs` matching `pat`, else `init`. -/
def lastMatchingUrl (pat : String) (init : Option String) (reqs : List Request) :
    Option String :=
  reqs.foldl (fun acc r => if matchesEndpoint r.url pat then some r.url else acc) init

/-- The header set captured for the usage shape after `reqs`: the headers
(with the Content-Type override) of the last usage-matching request, else
`init`. -/
def lastMatchingHeaders (init : Option (List (String × String))) (reqs : List Request) :
    Option (List (String × String)) :=
  reqs.foldl
    (fun acc r =>
      if matchesEndpoint r.url API_ENDPOINTS.usage then
        some (setHeader r.headers "Content-Type" "application/json")
      else acc)
    init

/-! # Theorems -/

/-! ## Helper lemmas about the request handler -/

theorem onRequest_apiEndpoint (s : CaptureState) (r : Request) :
    (onRequest s r).apiEndpoint =
      if matchesEndpoint r.url API_ENDPOINTS.usage then some r.url else s.apiEndpoint := by
  unfold onRequest
  split_ifs <;> rfl

theorem onRequest_apiHeaders (s : CaptureState) (r : Request) :
    (onRequest s r).apiHeaders =
      if matchesEndpoint r.url API_ENDPOINTS.usage then
        some (setHeader r.headers "Content-Type" "application/json")
      else s.apiHeaders := by
  unfold onRequest
  split_ifs <;> rfl

theorem onRequest_creditsEndpoint (s : CaptureState) (r : Request) :
    (onRequest s r).creditsEndpoint =
      if matchesEndpoint r.url API_ENDPOINTS.prepaidCredits then some r.url
      else s.creditsEndpoint := by
  unfold onRequest
  split_ifs <;> rfl

theorem onRequest_overageEndpoint (s : CaptureState) (r : Request) :
    (onRequest s r).overageEndpoint =
      if matchesEndpoint r.url API_ENDPOINTS.overageSpendLimit then some r.url
      else s.overageEndpoint := by
  unfold onRequest
  split_ifs <;> rfl

theorem processRequests_apiEndpoint (reqs : List Request) (s : CaptureState) :
    (processRequests s reqs).apiEndpoint =
      lastMatchingUrl API_ENDPOINTS.usage s.apiEndpoint reqs := by
  induction reqs generalizing s with
  | nil => rfl
  | cons r rs ih =>
    show (processRequests (onRequest s r) rs).apiEndpoint = _
    rw [ih (onRequest s r)]
    simp only [lastMatchingUrl, List.foldl_cons, onRequest_apiEndpoint]

theorem processRequests_apiHeaders (reqs : List Request) (s : CaptureState) :
    (processRequests s reqs).apiHeaders = lastMatchingHeaders s.apiHeaders reqs := by
  induction reqs generalizing s with
  | nil => rfl
  | cons r rs ih =>
    show (processRequests (onRequest s r) rs).apiHeaders = _
    rw [ih (onRequest s r)]
    simp only [lastMatchingHeaders, List.foldl_cons, onRequest_apiHeaders]

theorem processRequests_creditsEndpoint (reqs : List Request) (s : CaptureState) :
    (processRequests s reqs).creditsEndpoint =
      lastMatchingUrl API_ENDPOINTS.prepaidCredits s.creditsEndpoint reqs := by
  induction reqs generalizing s with
  | nil => rfl
  | cons r rs ih =>
    show (processRequests (onRequest s r) rs).creditsEndpoint = _
    rw [ih (onRequest s r)]
    simp only [lastMatchingUrl, List.foldl_cons, onRequest_creditsEndpoint]

theorem processRequests_overageEndpoint (reqs : List Request) (s : CaptureState) :
    (processRequests s reqs).overageEndpoint =
      lastMatchingUrl API_ENDPOINTS.overageSpendLimit s.overageEndpoint reqs := by
  induction reqs generalizing s with
  | nil => rfl
  | cons r rs ih =>
    show (processRequests (onRequest s r) rs).overageEndpoint = _
    rw [ih (onRequest s r)]
    simp only [lastMatchingUrl, List.foldl_cons, onRequest_overageEndpoint]

/-! ## C1 -/

/-- C1 counterexample: two different requests matching the usage shape are
fed to the interception handler; the captured usage endpoint is the SECOND
request's URL, not the first's, so the first-seen-wins behaviour stated by
the claim is false. -/
theorem c1_counterexample_last_request_overwrites :
    (processRequests CaptureState.init [reqUsage1, reqUsage2]).apiEndpoint
        = some reqUsage2.url ∧
      (processRequests CaptureState.init [reqUsage1, reqUsage2]).apiEndpoint
        ≠ some reqUsage1.url := by
  constructor
  · decide
  · decide

/-- C1 (amended): the interception handler captures, for each of the three
endpoint shapes, the URL (and for the usage shape the header set) of the
LAST matching request in the session: each later matching request
overwrites the previously captured one. -/
theorem c1_capture_is_last_seen_wins (reqs : List Request) (s : CaptureState) :
    (processRequests s reqs).apiEndpoint
        = lastMatchingUrl API_ENDPOINTS.usage s.apiEndpoint reqs ∧
      (processRequests s reqs).apiHeaders = lastMatchingHeaders s.apiHeaders reqs ∧
      (processRequests s reqs).creditsEndpoint
        = lastMatchingUrl API_ENDPOINTS.prepaidCredits s.creditsEndpoint reqs ∧
      (processRequests s reqs).overageEndpoint
        = lastMatchingUrl API_ENDPOINTS.overageSpendLimit s.overageEndpoint reqs :=
  ⟨processRequests_apiEndpoint reqs s, processRequests_apiHeaders reqs s,
    processRequests_creditsEndpoint reqs s, processRequests_overageEndpoint reqs s⟩

/-! ## C7 -/

/-- C7: `calculateResetTime` renders a missing timestamp as `Unknown`, a
non-positive difference as `Soon`, and a 26-hour difference as `1d 2h`; but
an unparsable timestamp (Invalid Date, NaN difference) slips past every
branch and renders as `NaNm`, not `Unknown` — the `catch` that would return
`Unknown` never fires because `Date` arithmetic on an Invalid Date yields
NaN without throwing. -/
theorem c7_calculateResetTime_naNm_on_unparsable :
    (∀ (parseDate : String → JSNum) (nowMs : Int),
        calculateResetTime parseDate nowMs none = "Unknown") ∧
      calculateResetTime (fun _ => JSNum.val 0) 5 (some "2020-01-01T00:00:00Z") = "Soon" ∧
      calculateResetTime (fun _ => JSNum.val (26 * 3600000)) 0
        (some "2026-01-02T02:00:00Z") = "1d 2h" ∧
      calculateResetTime (fun _ => JSNum.nan) 0 (some "not-a-date") = "NaNm" ∧
      "NaNm" ≠ "Unknown" := by
  refine ⟨fun parseDate nowMs => rfl, by decide, by decide, by decide, by decide⟩

/-! ## C8 -/

/-- C8 counterexample: closing a live session completes normally yet leaves
the captured usage endpoint (and the other capture fields) in place, so the
claim that `close()` clears all captured endpoint fields is false. -/
theorem c8_counterexample_close_keeps_endpoints :
    (closeFn (.ok ()) liveSession).2 = .ok () ∧
      (closeFn (.ok ()) liveSession).1.capture.apiEndpoint ≠ none ∧
      (closeFn (.ok ()) liveSession).1.capture.capturedEndpoints ≠ [] := by
  refine ⟨rfl, by decide, by decide⟩

/-- C8 (amended): the captured endpoint data lives until the session is
reset: `reset()` (which first closes) clears every captured endpoint field
whenever it completes normally, while `close()` alone never changes the
capture fields. -/
theorem c8_reset_clears_endpoints (d : Except String Unit) (s : ScraperState) :
    ((resetFn d s).2 = .ok () → (resetFn d s).1.capture = CaptureState.init) ∧
      (closeFn d s).1.capture = s.capture := by
  constructor
  · intro hok
    unfold resetFn at hok ⊢
    cases hc : closeFn d s with
    | mk s' r =>
      rw [hc] at hok
      cases r with
      | error e => exact Except.noConfusion hok
      | ok _ => rfl
  · unfold closeFn
    split_ifs <;> try rfl
    cases d <;> rfl

/-- C8 witness: resetting the live session clears the capture fields, and
closing it leaves them untouched. -/
theorem c8_reset_clears_endpoints_witness :
    ((resetFn (.ok ()) liveSession).2 = .ok () →
        (resetFn (.ok ()) liveSession).1.capture = CaptureState.init) ∧
      (closeFn (.ok ()) liveSession).1.capture = liveSession.capture :=
  c8_reset_clears_endpoints (.ok ()) liveSession

/-! ## C9 -/

/-- C9: `close()` is idempotent: after a `close()` that returned normally,
a second `close()` (whatever its environment) returns the very same state
and never throws; and calling `close()` on an already-closed session
(browser handle null, lock already released) is a no-op that changes
nothing and returns normally. -/
theorem c9_close_idempotent (d1 d2 : Except String Unit) (s : ScraperState) :
    ((closeFn d1 s).2 = .ok () →
        closeFn d2 (closeFn d1 s).1 = ((closeFn d1 s).1, .ok ())) ∧
      (s.browser = false → s.lockHeld = false → closeFn d2 s = (s, .ok ())) := by
  obtain ⟨b, p, ii, ic, lk, cap⟩ := s
  constructor
  · intro hok
    cases b <;> cases ic <;> cases d1 <;> simp_all [closeFn]
  · intro hb hl
    subst hb; subst hl
    rfl

/-- C9 witness: closing the live session and closing again yields the same
state as the single close, with a normal return. -/
theorem c9_close_idempotent_witness :
    closeFn (.ok ()) (closeFn (.ok ()) liveSession).1
        = ((closeFn (.ok ()) liveSession).1, .ok ()) ∧
      closeFn (.ok ())
          { browser := false, page := false, isInitialized := false
            isConnectedBrowser := false, lockHeld := false
            capture := CaptureState.init }
        = ({ browser := false, page := false, isInitialized := false
             isConnectedBrowser := false, lockHeld := false
             capture := CaptureState.init }, .ok ()) :=
  ⟨(c9_close_idempotent (.ok ()) (.ok ()) liveSession).1 rfl,
    (c9_close_idempotent (.ok ()) (.ok ())
      { browser := false, page := false, isInitialized := false
        isConnectedBrowser := false, lockHeld := false
        capture := CaptureState.init }).2 rfl rfl⟩

/-! ## C2 -/

/-- C2: an exception while checking the session cookie is reported through
the `error` field of `checkCookie` (distinct from the cookie-absent result,
whose `error` is null), and `validateSession` turns it into the
`cookie_check_error` outcome — but `ensureLoggedIn`, the caller, then
invokes the interactive login flow for that outcome exactly as for any
other invalid reason, instead of treating it as "try fetching anyway": the
code contradicts the documented intent. -/
theorem c2_cookie_check_error_forces_relogin :
    (∀ (e : String) (nowMs : Int),
        (checkCookie true (.error e) nowMs).error = some e) ∧
      (∀ (nowMs : Int), (checkCookie true (.ok []) nowMs).error = none) ∧
      (∀ (e : String) (nowMs : Int) (probe : Except String Bool),
        validateSession true (.error e) nowMs probe
          = { valid := false, reason := "cookie_check_error" }) ∧
      (ensureLoggedIn none 0 true
          (validateSession true (.error "net::ERR_TIMED_OUT") 0 (.ok true))
          (.ok ()) (.ok ())).invokedLogin = true := by
  refine ⟨fun e nowMs => rfl, fun nowMs => rfl, fun e nowMs probe => rfl, rfl⟩

/-! ## C5 -/

/-- C5: whenever `openLoginBrowser` gets past lock acquisition (so the
shared state was written as `logging_in`), the state it leaves behind on
every path — success, user-cancelled, timed out, or any thrown error — is
either cleared (record deleted) or a `login_failed` record, and the browser
lock is not held when it returns or propagates. -/
theorem c5_login_state_always_resolved (env : OLBEnv) (file0 : Option StateRecord)
    (lock0 : Bool) (h : lock0 = true ∨ env.acquireOk = true) :
    ((openLoginBrowser env file0 lock0).1 = none ∨
        ∃ reason, (openLoginBrowser env file0 lock0).1
          = some { state := "login_failed", reason := some reason, timestamp := env.now }) ∧
      (openLoginBrowser env file0 lock0).2.1 = false := by
  have hcond : ¬(¬lock0 ∧ ¬env.acquireOk) := by
    rcases h with h | h <;> simp [h]
  have hcatch : ∀ (bf : Option StateRecord) (r : Except String Unit),
      (bf = none ∨ ∃ reason, bf
        = some { state := "login_failed", reason := some reason, timestamp := env.now }) →
      (loginCatchUpdate env.now bf r = none ∨
        ∃ reason, loginCatchUpdate env.now bf r
          = some { state := "login_failed", reason := some reason, timestamp := env.now }) := by
    intro bf r hbf
    cases r with
    | ok _ => exact hbf
    | error e =>
      simp only [loginCatchUpdate]
      split_ifs with hm
      · exact Or.inr ⟨e, rfl⟩
      · exact hbf
  unfold openLoginBrowser
  rw [if_neg hcond]
  refine ⟨?_, rfl⟩
  cases hfo : env.forceOpenSuccess <;> cases hlw : env.loginWait <;>
    simp only [hfo, hlw] <;>
    first
      | exact hcatch _ _ (Or.inl rfl)
      | exact hcatch _ _ (Or.inr ⟨"browser_launch_failed", rfl⟩)
      | exact hcatch _ _ (Or.inr ⟨"user_cancelled", rfl⟩)
      | exact hcatch _ _ (Or.inr ⟨"timeout", rfl⟩)

/-- C5 witness: a cancelled login run starting from an empty state file and
no lock leaves a `login_failed` (user_cancelled) record and no lock. -/
theorem c5_login_state_always_resolved_witness :
    ((openLoginBrowser envCancelledLogin none false).1 = none ∨
        ∃ reason, (openLoginBrowser envCancelledLogin none false).1
          = some { state := "login_failed", reason := some reason
                   timestamp := envCancelledLogin.now }) ∧
      (openLoginBrowser envCancelledLogin none false).2.1 = false :=
  c5_login_state_always_resolved envCancelledLogin none false (Or.inr rfl)

/-! ## C6 -/

/-- C6: a fetch cycle reads the shared state before any browser work:
a fresh `logging_in` record makes `ensureLoggedIn` abort at once with the
skip signal `LOGIN_IN_PROGRESS` and zero browser operations, a fresh
`login_failed` record makes it abort at once with `LOGIN_FAILED_SHARED`,
and (for state files produced by this code, which only ever writes those
two states) browser work happens only when the effective state is
`unknown`. -/
theorem c6_shared_state_gates_fetch (file : Option StateRecord) (now : Int)
    (hasSession : Bool) (validation : ValidationResult)
    (gotoUsage loginFlow : Except String Unit)
    (hwf : ∀ rec, file = some rec →
      rec.state = "logging_in" ∨ rec.state = "login_failed") :
    ((browserStateRead file now).state = "logging_in" →
        ensureLoggedIn file now hasSession validation gotoUsage loginFlow
          = { browserOps := 0, invokedLogin := false
              result := .error "LOGIN_IN_PROGRESS" }) ∧
      ((browserStateRead file now).state = "login_failed" →
        ensureLoggedIn file now hasSession validation gotoUsage loginFlow
          = { browserOps := 0, invokedLogin := false
              result := .error "LOGIN_FAILED_SHARED" }) ∧
      (0 < (ensureLoggedIn file now hasSession validation gotoUsage loginFlow).browserOps →
        (browserStateRead file now).state = "unknown") := by
  refine ⟨?_, ?_, ?_⟩
  · intro hst
    simp only [ensureLoggedIn, if_pos hst]
  · intro hst
    have hne : (browserStateRead file now).state ≠ "logging_in" := by
      rw [hst]; decide
    simp only [ensureLoggedIn, if_neg hne, if_pos hst]
  · intro hops
    by_contra hunk
    have hcases : (browserStateRead file now).state = "logging_in" ∨
        (browserStateRead file now).state = "login_failed" := by
      cases hfile : file with
      | none =>
        exfalso
        exact hunk (by rw [hfile]; rfl)
      | some rec =>
        show (if rec.timestamp ≠ 0 ∧ now - rec.timestamp < 300000 then rec
            else { state := "unknown", reason := none, timestamp := 0 }).state
              = "logging_in" ∨
          (if rec.timestamp ≠ 0 ∧ now - rec.timestamp < 300000 then rec
            else { state := "unknown", reason := none, timestamp := 0 }).state
              = "login_failed"
        by_cases hts : rec.timestamp ≠ 0 ∧ now - rec.timestamp < 300000
        · rw [if_pos hts]
          exact hwf rec hfile
        · exfalso
          apply hunk
          rw [hfile]
          show (if rec.timestamp ≠ 0 ∧ now - rec.timestamp < 300000 then rec
            else { state := "unknown", reason := none, timestamp := 0 }).state = "unknown"
          rw [if_neg hts]
    have hzero : (ensureLoggedIn file now hasSession validation gotoUsage loginFlow).browserOps
        = 0 := by
      rcases hcases with hh | hh
      · simp only [ensureLoggedIn, if_pos hh]
      · have hne : (browserStateRead file now).state ≠ "logging_in" := by
          rw [hh]; decide
        simp only [ensureLoggedIn, if_neg hne, if_pos hh]
    rw [hzero] at hops
    exact absurd hops (by decide)

/-- C6 witness: with a fresh `logging_in` record on disk, a second
instance's `ensureLoggedIn` aborts with `LOGIN_IN_PROGRESS` doing no
browser work. -/
theorem c6_shared_state_gates_fetch_witness :
    ((browserStateRead (some { state := "logging_in", reason := none, timestamp := 1 }) 2).state
          = "logging_in" →
        ensureLoggedIn (some { state := "logging_in", reason := none, timestamp := 1 }) 2
            true { valid := true, reason := "valid" } (.ok ()) (.ok ())
          = { browserOps := 0, invokedLogin := false
              result := .error "LOGIN_IN_PROGRESS" }) ∧
      ((browserStateRead (some { state := "logging_in", reason := none, timestamp := 1 }) 2).state
          = "login_failed" →
        ensureLoggedIn (some { state := "logging_in", reason := none, timestamp := 1 }) 2
            true { valid := true, reason := "valid" } (.ok ()) (.ok ())
          = { browserOps := 0, invokedLogin := false
              result := .error "LOGIN_FAILED_SHARED" }) ∧
      (0 < (ensureLoggedIn (some { state := "logging_in", reason := none, timestamp := 1 }) 2
            true { valid := true, reason := "valid" } (.ok ()) (.ok ())).browserOps →
        (browserStateRead (some { state := "logging_in", reason := none, timestamp := 1 }) 2).state
          = "unknown") :=
  c6_shared_state_gates_fetch
    (some { state := "logging_in", reason := none, timestamp := 1 }) 2 true
    { valid := true, reason := "valid" } (.ok ()) (.ok ())
    (fun rec h => by cases h; exact Or.inl rfl)

/-! ## C3 -/

/-- C3: whenever the direct usage-API path is unavailable (no captured
endpoint or headers) or the direct call throws, `fetchUsageData` falls back
to regex extraction over the rendered page text; it fails with the
page-layout-changed error exactly when the percentage regex finds no match,
and on the Scenario C text it yields usage 73 % with reset string
`2h 15m`. -/
theorem c3_scrape_fallback_iff_layout (env : FetchEnv)
    (hgoto : env.gotoResult = .ok ())
    (hdirect : env.apiEndpoint = none ∨ env.apiHeaders = none ∨
      ∃ e, env.usageCall = .error e) :
    (fetchUsageData env
        = .error "Could not find usage percentage. Page layout may have changed."
      ↔ findPercent env.bodyText.data = none) ∧
      (env.bodyText = scenarioCText →
        fetchUsageData env = .ok (.scraped 73 "2h 15m")) := by
  have hbody : fetchBody env = scrapeFallback env.bodyText := by
    rcases hdirect with h | h | ⟨e, h⟩
    · simp [fetchBody, h]
    · simp [fetchBody, h]
    · by_cases hc : (env.apiEndpoint.isSome && env.apiHeaders.isSome) = true
      · simp only [fetchBody, if_pos hc, h]
      · simp only [fetchBody, if_neg hc]
  have hfetch : fetchUsageData env =
      (match scrapeFallback env.bodyText with
       | .error e =>
         if strIncludes e "timeout" then
           Except.error "Usage page took too long to load. Please try again."
         else .error e
       | .ok v => .ok v) := by
    unfold fetchUsageData
    rw [hgoto]
    dsimp only
    rw [hbody]
  constructor
  · rw [hfetch]
    cases hp : findPercent env.bodyText.data with
    | none =>
      simp only [scrapeFallback, scrapePage, hp]
      have hti : strIncludes
          "Could not find usage percentage. Page layout may have changed." "timeout"
            = false := by decide
      simp only [hti]
      simp
    | some p =>
      simp only [scrapeFallback, scrapePage, hp]
      constructor
      · intro hcontr
        exact Except.noConfusion hcontr
      · intro hcontr
        exact Option.noConfusion hcontr
  · intro hb
    rw [hfetch, hb]
    rfl

/-- C3 witness: in the environment of Scenario C (no usage endpoint
captured, page text showing 73 % used and a 2h 15m reset) the fallback
yields the scraped pair and the layout-error equivalence holds. -/
theorem c3_scrape_fallback_iff_layout_witness :
    ((fetchUsageData envScenarioC
        = .error "Could not find usage percentage. Page layout may have changed."
      ↔ findPercent envScenarioC.bodyText.data = none) ∧
      (envScenarioC.bodyText = scenarioCText →
        fetchUsageData envScenarioC = .ok (.scraped 73 "2h 15m"))) ∧
      fetchUsageData envScenarioC = .ok (.scraped 73 "2h 15m") := by
  have h := c3_scrape_fallback_iff_layout envScenarioC rfl (Or.inl rfl)
  exact ⟨h, h.2 rfl⟩

/-! ## C4 -/

/-- C4: when the direct usage call succeeds (and its response extracts), a
failure of the opportunistic prepaid-credits call or of the overage call —
an exception or a non-2xx response — never fails the fetch: a snapshot is
still returned, with the corresponding optional field simply absent. -/
theorem c4_optional_call_failures_tolerated (env : FetchEnv) (j : Json) (d : Extracted)
    (hgoto : env.gotoResult = .ok ())
    (hep : env.apiEndpoint.isSome = true)
    (hhd : env.apiHeaders.isSome = true)
    (hcall : env.usageCall = .ok j)
    (hex : extractFromSchema j = some d) :
    ∃ snap : UsageSnapshot,
      fetchUsageData env = .ok (.api snap) ∧
      snap.prepaidCredits = processPrepaidData (creditsDataOf env) ∧
      snap.monthlyCredits = processOverageData (overageDataOf env) ∧
      ((env.creditsCall = .ok none ∨ ∃ e, env.creditsCall = .error e) →
        snap.prepaidCredits = none) ∧
      ((env.overageCall = .ok none ∨ ∃ e, env.overageCall = .error e) →
        snap.monthlyCredits = none) := by
  have hcred : (env.creditsCall = .ok none ∨ ∃ e, env.creditsCall = .error e) →
      creditsDataOf env = none := by
    intro hc
    unfold creditsDataOf
    rcases hc with hc | ⟨e, hc⟩ <;> rw [hc] <;> split_ifs <;> rfl
  have hov : (env.overageCall = .ok none ∨ ∃ e, env.overageCall = .error e) →
      overageDataOf env = none := by
    intro hc
    unfold overageDataOf
    rcases hc with hc | ⟨e, hc⟩ <;> rw [hc] <;> split_ifs <;> rfl
  have hmain : ∃ snap, processApiResponse env.parseDate env.nowMs j
      (creditsDataOf env) (overageDataOf env) = .ok snap ∧
      snap.prepaidCredits = processPrepaidData (creditsDataOf env) ∧
      snap.monthlyCredits = processOverageData (overageDataOf env) := by
    unfold processApiResponse
    rw [hex]
    exact ⟨_, rfl, rfl, rfl⟩
  obtain ⟨snap, hproc, hpc, hmc⟩ := hmain
  refine ⟨snap, ?_, hpc, hmc, ?_, ?_⟩
  · have hinner : fetchBody env = .ok (.api snap) := by
      unfold fetchBody
      rw [if_pos (by rw [hep, hhd]; rfl)]
      rw [hcall]
      dsimp only
      rw [hproc]
    unfold fetchUsageData
    rw [hgoto]
    dsimp only
    rw [hinner]
  · intro hc
    rw [hpc, hcred hc]
    rfl
  · intro hc
    rw [hmc, hov hc]
    rfl

/-- C4 witness: with a well-formed direct usage response, a throwing
credits call and a non-2xx overage call, a snapshot is still returned and
both optional fields are absent. -/
theorem c4_optional_call_failures_tolerated_witness :
    ∃ snap : UsageSnapshot,
      fetchUsageData envDirectOk = .ok (.api snap) ∧
      snap.prepaidCredits = processPrepaidData (creditsDataOf envDirectOk) ∧
      snap.monthlyCredits = processOverageData (overageDataOf envDirectOk) ∧
      ((envDirectOk.creditsCall = .ok none ∨ ∃ e, envDirectOk.creditsCall = .error e) →
        snap.prepaidCredits = none) ∧
      ((envDirectOk.overageCall = .ok none ∨ ∃ e, envDirectOk.overageCall = .error e) →
        snap.monthlyCredits = none) :=
  c4_optional_call_failures_tolerated envDirectOk usageJsonOk extractedOk
    rfl rfl rfl rfl rfl

/-! ## Dedup lemmas for C10 -/

theorem dedupRecords_nodup_disjoint (rs : List UsageRecord) (seen : List String) :
    ((dedupRecords rs seen).map getRecordHash).Nodup ∧
      ∀ h ∈ (dedupRecords rs seen).map getRecordHash, h ∉ seen := by
  induction rs generalizing seen with
  | nil =>
    refine ⟨List.nodup_nil, ?_⟩
    intro h hh
    simp [dedupRecords] at hh
  | cons r rs ih =>
    by_cases hmem : getRecordHash r ∈ seen
    · simpa only [dedupRecords, if_pos hmem] using ih seen
    · obtain ⟨ihn, ihd⟩ := ih (getRecordHash r :: seen)
      simp only [dedupRecords, if_neg hmem, List.map_cons]
      refine ⟨List.nodup_cons.mpr ⟨?_, ihn⟩, ?_⟩
      · intro hin
        exact ihd _ hin (List.mem_cons_self _ _)
      · intro h hh
        rcases List.mem_cons.mp hh with rfl | hh'
        · exact hmem
        · intro hsn
          exact ihd h hh' (List.mem_cons_of_mem _ hsn)

theorem dedupRecords_covers (rs : List UsageRecord) :
    ∀ (seen : List String) (r : UsageRecord), r ∈ rs →
      getRecordHash r ∈ seen ∨
        ∃ rr ∈ dedupRecords rs seen, getRecordHash rr = getRecordHash r := by
  induction rs with
  | nil =>
    intro seen r hr
    cases hr
  | cons r0 rs ih =>
    intro seen r hr
    by_cases hmem : getRecordHash r0 ∈ seen
    · simp only [dedupRecords, if_pos hmem]
      rcases List.mem_cons.mp hr with rfl | hr'
      · exact Or.inl hmem
      · exact ih seen r hr'
    · simp only [dedupRecords, if_neg hmem]
      rcases List.mem_cons.mp hr with rfl | hr'
      · exact Or.inr ⟨r, List.mem_cons_self _ _, rfl⟩
      · rcases ih (getRecordHash r0 :: seen) r hr' with hin | ⟨rr, hrr, heq⟩
        · rcases List.mem_cons.mp hin with heq0 | hin'
          · exact Or.inr ⟨r0, List.mem_cons_self _ _, heq0.symm⟩
          · exact Or.inl hin'
        · exact Or.inr ⟨rr, List.mem_cons_of_mem _ hrr, heq⟩

/-! ## C10 -/

/-- C10: `loadUsageRecords` counts records with an identical deduplication
hash exactly once (the kept records have pairwise-distinct hashes and every
input record is represented by a kept record with its hash), the returned
`totalTokens` equals the sum of the four returned component totals, and
`messageCount` equals the number of unique records. -/
theorem c10_load_dedup_and_totals (filteredRecords : List UsageRecord) :
    ((loadUsageRecords filteredRecords).records.map getRecordHash).Nodup ∧
      (∀ r ∈ filteredRecords, ∃ rr ∈ (loadUsageRecords filteredRecords).records,
        getRecordHash rr = getRecordHash r) ∧
      (loadUsageRecords filteredRecords).totalTokens
        = (loadUsageRecords filteredRecords).inputTokens
          + (loadUsageRecords filteredRecords).outputTokens
          + (loadUsageRecords filteredRecords).cacheCreationTokens
          + (loadUsageRecords filteredRecords).cacheReadTokens ∧
      (loadUsageRecords filteredRecords).messageCount
        = (loadUsageRecords filteredRecords).records.length := by
  refine ⟨(dedupRecords_nodup_disjoint filteredRecords []).1, ?_, rfl, rfl⟩
  intro r hr
  rcases dedupRecords_covers filteredRecords [] r hr with hin | hfound
  · exact absurd hin (List.not_mem_nil _)
  · exact hfound

/-- C10 witness: two records sharing one hash plus a third distinct record:
the kept hashes are distinct, the duplicated record is represented, and the
totals identity holds. -/
theorem c10_load_dedup_and_totals_witness :
    ((loadUsageRecords [recA, recB, recC]).records.map getRecordHash).Nodup ∧
      (∃ rr ∈ (loadUsageRecords [recA, recB, recC]).records,
        getRecordHash rr = getRecordHash recB) ∧
      (loadUsageRecords [recA, recB, recC]).totalTokens
        = (loadUsageRecords [recA, recB, recC]).inputTokens
          + (loadUsageRecords [recA, recB, recC]).outputTokens
          + (loadUsageRecords [recA, recB, recC]).cacheCreationTokens
          + (loadUsageRecords [recA, recB, recC]).cacheReadTokens ∧
      (loadUsageRecords [recA, recB, recC]).messageCount
        = (loadUsageRecords [recA, recB, recC]).records.length :=
  ⟨(c10_load_dedup_and_totals [recA, recB, recC]).1,
    (c10_load_dedup_and_totals [recA, recB, recC]).2.1 recB (by decide),
    (c10_load_dedup_and_totals [recA, recB, recC]).2.2.1,
    (c10_load_dedup_and_totals [recA, recB, recC]).2.2.2⟩

end Claudemeter
